import Mathlib

/-!
Shallow embedding of the cloud monthly-cost cron job (src/main.py).

The program reads a YAML config, computes the previous calendar month,
fetches one cost figure per configured AWS account and Azure subscription,
and inserts one row per successful fetch into a provider-specific table.
External effects (the STS call, the billing queries, os.getenv, the
database connection) are modelled as per-descriptor oracles supplied in an
environment record; Python exceptions are modelled with Except, where an
Except.error escaping a function means an uncaught Python exception.
-/

namespace CloudCost

/-- A calendar date (year, month, day), as carried by Python datetime values. -/
structure Date where
  year : Nat
  month : Nat
  day : Nat
deriving DecidableEq, Repr

/-- Gregorian leap-year rule, as implemented by the Python datetime library. -/
def isLeapYear (y : Nat) : Bool :=
  (y % 4 == 0 && y % 100 != 0) || (y % 400 == 0)

/-- Number of days in month m of year y (Gregorian). -/
def daysInMonth (y m : Nat) : Nat :=
  if m = 2 then (if isLeapYear y then 29 else 28)
  else if m = 4 ∨ m = 6 ∨ m = 9 ∨ m = 11 then 30
  else 31

/-- A date is valid when its month and day lie in calendar range. -/
def Date.Valid (d : Date) : Prop :=
  1 ≤ d.month ∧ d.month ≤ 12 ∧ 1 ≤ d.day ∧ d.day ≤ daysInMonth d.year d.month

instance (d : Date) : Decidable d.Valid := by
  unfold Date.Valid; infer_instance

/-- The day before d, for valid d: Python `d - timedelta(days=1)`. -/
def Date.predDay (d : Date) : Date :=
  if d.day > 1 then { d with day := d.day - 1 }
  else if d.month > 1 then { d with month := d.month - 1, day := daysInMonth d.year (d.month - 1) }
  else { year := d.year - 1, month := 12, day := 31 }

/-- Zero-padded two-digit rendering, as strftime %m, %d and %y produce. -/
def pad2 (n : Nat) : String :=
  if n < 10 then "0" ++ toString n else toString n

/-- Zero-padded four-digit rendering, as strftime %Y produces. -/
def pad4 (n : Nat) : String :=
  if n < 10 then "000" ++ toString n
  else if n < 100 then "00" ++ toString n
  else if n < 1000 then "0" ++ toString n
  else toString n

/-- strftime with format %Y-%m-%d (the AWS date convention). -/
def fmtAws (d : Date) : String :=
  pad4 d.year ++ "-" ++ pad2 d.month ++ "-" ++ pad2 d.day

/-- strftime with format %Y-%m-%dT00:00:00Z (Azure range start). -/
def fmtAzureStart (d : Date) : String := fmtAws d ++ "T00:00:00Z"

/-- strftime with format %Y-%m-%dT23:59:59Z (Azure range end). -/
def fmtAzureEnd (d : Date) : String := fmtAws d ++ "T23:59:59Z"

/-- strftime with format %d/%m/%y, used for the sample-date column. -/
def fmtDdMmYy (d : Date) : String :=
  pad2 d.day ++ "/" ++ pad2 d.month ++ "/" ++ pad2 (d.year % 100)

/-- src/main.py get_previous_month_range, with `today` made an explicit
argument in place of datetime.today(): take the first of the current
month, step back one day to land on the last day of the previous month,
and reset the day to 1 for the first day of the previous month; format
the pair once for AWS and once for Azure. -/
def get_previous_month_range (today : Date) :
    (String × String) × (String × String) :=
  let first_of_this_month := { today with day := 1 }
  let last_of_previous_month := first_of_this_month.predDay
  let first_of_previous_month := { last_of_previous_month with day := 1 }
  ((fmtAws first_of_previous_month, fmtAws last_of_previous_month),
   (fmtAzureStart first_of_previous_month, fmtAzureEnd last_of_previous_month))

/-- The (year, month) of the month preceding month m of year y. -/
def prevYM (y m : Nat) : Nat × Nat :=
  if m = 1 then (y - 1, 12) else (y, m - 1)

/-- A scalar as produced by yaml.safe_load for a mapping entry: a string,
a boolean, or null. Python equality between a bool and a str is False. -/
inductive Yaml where
  | str (s : String)
  | bool (b : Bool)
  | null
deriving DecidableEq, Repr

/-- Python `v == "true"` for a YAML scalar v: true only when v is the
string "true"; a YAML boolean or null never equals a Python str. -/
def Yaml.eqStrTrue : Yaml → Bool
  | .str s => s = "true"
  | .bool _ => false
  | .null => false

/-- Monetary amount; the source carries Python floats through unchanged
and never computes with them, so an exact numeric type is faithful. -/
abbrev Cost := Rat

deriving instance DecidableEq for Except

/-- A Python exception escaping or caught at some call site. -/
inductive PyErr where
  | assumeRoleError
  | queryError
  | indexError
  | credentialError
  | dbError
  | configError
deriving DecidableEq, Repr

/-- One AWS account entry of the config file (src/main.py reads keys
accountId, roleName, accountName, tags, tagKey, tagValue). -/
structure AwsAccount where
  accountId : String
  roleName : String
  accountName : String
  tags : Yaml
  tagKey : String
  tagValue : String
deriving DecidableEq, Repr

/-- The Filter dict built at src/main.py lines 64-70: one Tags entry with
a key, a value list, and MatchOptions. -/
structure TagFilter where
  key : String
  values : List String
  matchOptions : List String
deriving DecidableEq, Repr

/-- The argument set of client.get_cost_and_usage: time period,
granularity, metrics, and an optional tag filter (absent when the call
passes no Filter parameter). -/
structure CostQuery where
  timePeriodStart : String
  timePeriodEnd : String
  granularity : String
  metrics : List String
  filter : Option TagFilter
deriving DecidableEq, Repr

/-- The query fetch_aws_costs issues: the two branches at src/main.py
lines 63-93 differ only in whether the Filter parameter is passed, and it
is passed exactly when the tags field of aws_account equals the Python
string "true". -/
def awsCostQuery (aws_account : AwsAccount) (start_date end_date : String) : CostQuery :=
  if aws_account.tags.eqStrTrue then
    { timePeriodStart := start_date, timePeriodEnd := end_date,
      granularity := "MONTHLY", metrics := ["UnblendedCost"],
      filter := some { key := aws_account.tagKey,
                       values := [aws_account.tagValue],
                       matchOptions := ["EQUALS"] } }
  else
    { timePeriodStart := start_date, timePeriodEnd := end_date,
      granularity := "MONTHLY", metrics := ["UnblendedCost"],
      filter := none }

/-- One entry of the ResultsByTime list of the response: its
Total.UnblendedCost.Amount, already through float(). -/
structure AwsResultByTime where
  unblendedCostAmount : Cost
deriving DecidableEq, Repr

/-- The get_cost_and_usage response body used by the source. -/
structure AwsResponse where
  resultsByTime : List AwsResultByTime
deriving DecidableEq, Repr

/-- Outcomes of the two AWS network calls for one account: the STS
assume_role call (a function of account id and role name, as in
src/main.py lines 42-53) and the Cost Explorer query. -/
structure AwsEnv where
  assumeRole : String → String → Except PyErr Unit
  getCostAndUsage : CostQuery → Except PyErr AwsResponse

/-- src/main.py fetch_aws_costs. The assume_role call on line 56 is
outside every try/except, so its exception escapes. The
get_cost_and_usage call is inside a try whose except prints and returns
None. The indexing and float() on the response (lines 82 and 93) are
outside the try, so an empty ResultsByTime raises an uncaught IndexError. -/
def fetch_aws_costs (env : AwsEnv) (aws_account : AwsAccount)
    (start_date end_date : String) : Except PyErr (Option Cost) :=
  match env.assumeRole aws_account.accountId aws_account.roleName with
  | Except.error e => Except.error e
  | Except.ok _session =>
    match env.getCostAndUsage (awsCostQuery aws_account start_date end_date) with
    | Except.error _e => Except.ok none
    | Except.ok response =>
      match response.resultsByTime with
      | [] => Except.error PyErr.indexError
      | r :: _ => Except.ok (some r.unblendedCostAmount)

/-- One Azure entry of the config file (keys Subscription, accountName). -/
structure AzureAccount where
  subscription : String
  accountName : String
deriving DecidableEq, Repr

/-- The QueryDefinition plus scope submitted by fetch_azure_costs. -/
structure AzureQuery where
  scope : String
  queryType : String
  timeframe : String
  timeFrom : String
  timeTo : String
  granularity : String
  aggregationName : String
  aggregationFunction : String
deriving DecidableEq, Repr

/-- Python str.replace with the one-character pattern "_" and
replacement "-": every underscore becomes a hyphen. -/
def underscoresToHyphens (s : String) : String :=
  String.mk (s.data.map (fun c => if c = '_' then '-' else c))

/-- The scope and QueryDefinition built at src/main.py lines 106-112. -/
def azureQueryDef (azure_account : AzureAccount) (start_date end_date : String) : AzureQuery :=
  { scope := "/subscriptions/" ++ underscoresToHyphens azure_account.subscription,
    queryType := "ActualCost", timeframe := "Custom",
    timeFrom := start_date, timeTo := end_date,
    granularity := "Monthly",
    aggregationName := "PreTaxCost", aggregationFunction := "Sum" }

/-- The result object of client.query.usage: a list of rows, each a list
of column values. -/
structure AzureResult where
  rows : List (List Cost)
deriving DecidableEq, Repr

/-- Outcomes of the Azure external calls for one subscription: os.getenv,
the ClientSecretCredential construction (arguments tenant id, client id,
client secret), and the cost query. -/
structure AzureEnv where
  getenv : String → Option String
  mkCredential : Option String → Option String → Option String → Except PyErr Unit
  queryUsage : AzureQuery → Except PyErr AzureResult

/-- src/main.py fetch_azure_costs. The env-var lookups return None rather
than raising. The ClientSecretCredential and CostManagementClient
construction (lines 104-105) is outside the try, so its exception
escapes. The query, the rows check, and the rows[0][0] indexing are all
inside a try whose except prints and returns None; empty rows print
"No data available." and return None. -/
def fetch_azure_costs (env : AzureEnv) (azure_account : AzureAccount)
    (start_date end_date : String) : Except PyErr (Option Cost) :=
  let subscription_key := azure_account.subscription.toUpper
  let client_id := env.getenv ("AZURE_" ++ subscription_key ++ "_CLIENT")
  let client_secret := env.getenv ("AZURE_" ++ subscription_key ++ "_SECRET")
  let tenant_id := env.getenv ("AZURE_" ++ subscription_key ++ "_TENANT")
  match env.mkCredential tenant_id client_id client_secret with
  | Except.error e => Except.error e
  | Except.ok _credential =>
    match env.queryUsage (azureQueryDef azure_account start_date end_date) with
    | Except.error _e => Except.ok none
    | Except.ok result =>
      match result.rows with
      | [] => Except.ok none
      | row :: _ =>
        match row.head? with
        | some cost_value => Except.ok (some cost_value)
        | none => Except.ok none

/-- The data dict passed to insert_into_db. -/
structure CostData where
  accountName : String
  subscription : String
  monthlyCost : Cost
deriving DecidableEq, Repr

/-- The row bound into the INSERT statement: the three data fields plus
the sample date computed inside insert_into_db. -/
structure DbRow where
  accountName : String
  subscription : String
  monthlyCost : Cost
  sampleDate : String
deriving DecidableEq, Repr

/-- Outcome of psycopg2.connect plus cursor execute/commit for one row. -/
structure DbEnv where
  connectAndInsert : String → DbRow → Except PyErr Unit

/-- src/main.py insert_into_db, with datetime.today() made the explicit
argument `today`. A fresh connection is opened per call; the whole
connect/insert/commit is inside a try whose except prints, so the
function never raises. Returns the table, the row bound into the INSERT,
and whether the insert committed. -/
def insert_into_db (env : DbEnv) (today : Date) (data : CostData)
    (table_name : String) : String × DbRow × Bool :=
  let sample_date := fmtDdMmYy today
  let row : DbRow := { accountName := data.accountName,
                       subscription := data.subscription,
                       monthlyCost := data.monthlyCost,
                       sampleDate := sample_date }
  match env.connectAndInsert table_name row with
  | Except.ok _ => (table_name, row, true)
  | Except.error _e => (table_name, row, false)

/-- The config file contents: the aws and azure lists. -/
structure Config where
  aws : List AwsAccount
  azure : List AzureAccount
deriving DecidableEq, Repr

/-- The whole external world for one run: the load_config outcome, the
run date, the per-descriptor cloud oracles, and the database. -/
structure RunEnv where
  config : Except PyErr Config
  today : Date
  awsEnv : AwsAccount → AwsEnv
  azureEnv : AzureAccount → AzureEnv
  dbEnv : DbEnv

/-- Observable steps of a run: each fetch that returned (with its
result), and each invocation of insert_into_db (with the table, the row
bound into the INSERT, and whether it committed). -/
inductive Event where
  | awsFetched (acct : AwsAccount) (result : Option Cost)
  | azureFetched (acct : AzureAccount) (result : Option Cost)
  | insertAttempt (table : String) (row : DbRow) (committed : Bool)
deriving DecidableEq, Repr

/-- The AWS loop of main (src/main.py lines 148-152): fetch each account;
on a non-null cost, insert {accountName, Subscription := "N/A", cost}
into aws_monthly_cost. A fetch that raises aborts the loop with an
uncaught exception; nothing after it runs. -/
def processAws (env : RunEnv) (start_date end_date : String) :
    List AwsAccount → List Event × Option PyErr
  | [] => ([], none)
  | aws_account :: rest =>
    match fetch_aws_costs (env.awsEnv aws_account) aws_account start_date end_date with
    | Except.error e => ([], some e)
    | Except.ok none =>
      ((Event.awsFetched aws_account none) :: (processAws env start_date end_date rest).1,
       (processAws env start_date end_date rest).2)
    | Except.ok (some cost) =>
      let i := insert_into_db env.dbEnv env.today
        { accountName := aws_account.accountName, subscription := "N/A", monthlyCost := cost }
        "aws_monthly_cost"
      ((Event.awsFetched aws_account (some cost)) ::
        (Event.insertAttempt i.1 i.2.1 i.2.2) :: (processAws env start_date end_date rest).1,
       (processAws env start_date end_date rest).2)

/-- The Azure loop of main (src/main.py lines 154-158): fetch each
subscription; on a non-null cost, insert the accountName, the
Subscription field of the descriptor, and the cost into
azure_monthly_cost. -/
def processAzure (env : RunEnv) (start_date end_date : String) :
    List AzureAccount → List Event × Option PyErr
  | [] => ([], none)
  | azure_account :: rest =>
    match fetch_azure_costs (env.azureEnv azure_account) azure_account start_date end_date with
    | Except.error e => ([], some e)
    | Except.ok none =>
      ((Event.azureFetched azure_account none) :: (processAzure env start_date end_date rest).1,
       (processAzure env start_date end_date rest).2)
    | Except.ok (some cost) =>
      let i := insert_into_db env.dbEnv env.today
        { accountName := azure_account.accountName,
          subscription := azure_account.subscription, monthlyCost := cost }
        "azure_monthly_cost"
      ((Event.azureFetched azure_account (some cost)) ::
        (Event.insertAttempt i.1 i.2.1 i.2.2) :: (processAzure env start_date end_date rest).1,
       (processAzure env start_date end_date rest).2)

/-- src/main.py main plus process exit semantics: load_config calls
exit(1) on any failure; an uncaught exception escaping a fetch makes the
interpreter exit non-zero (modelled as 1); otherwise both loops run to
completion and the process exits 0. Returns the event trace and the exit
code. -/
def main (env : RunEnv) : List Event × Nat :=
  match env.config with
  | Except.error _ => ([], 1)
  | Except.ok config =>
    let dates := get_previous_month_range env.today
    let awsRun := processAws env dates.1.1 dates.1.2 config.aws
    match awsRun.2 with
    | some _ => (awsRun.1, 1)
    | none =>
      let azureRun := processAzure env dates.2.1 dates.2.2 config.azure
      (awsRun.1 ++ azureRun.1, if azureRun.2.isSome then 1 else 0)

/-- The outcome of the ClientSecretCredential construction for one
subscription, applied to the three env-var lookups exactly as
fetch_azure_costs performs them. -/
def azureCredResult (env : AzureEnv) (azure_account : AzureAccount) : Except PyErr Unit :=
  env.mkCredential
    (env.getenv ("AZURE_" ++ azure_account.subscription.toUpper ++ "_TENANT"))
    (env.getenv ("AZURE_" ++ azure_account.subscription.toUpper ++ "_CLIENT"))
    (env.getenv ("AZURE_" ++ azure_account.subscription.toUpper ++ "_SECRET"))

/-- The credential construction for one subscription succeeds. -/
def azureCredOk (env : AzureEnv) (azure_account : AzureAccount) : Prop :=
  azureCredResult env azure_account = Except.ok ()

instance (env : AzureEnv) (azure_account : AzureAccount) :
    Decidable (azureCredOk env azure_account) := by
  unfold azureCredOk; infer_instance

/-- The inserted-row part of insert_into_db does not depend on the
database outcome: the table is passed through and the row binds the three
data fields plus the formatted run date. -/
theorem insert_into_db_row (env : DbEnv) (today : Date) (data : CostData)
    (table_name : String) :
    (insert_into_db env today data table_name).1 = table_name ∧
    (insert_into_db env today data table_name).2.1 =
      { accountName := data.accountName, subscription := data.subscription,
        monthlyCost := data.monthlyCost, sampleDate := fmtDdMmYy today } := by
  unfold insert_into_db
  dsimp only
  constructor <;> (split <;> rfl)

/-- Unfolding equation for the AWS loop when the fetch raises. -/
theorem processAws_cons_error (env : RunEnv) (sd ed : String) (a : AwsAccount)
    (rest : List AwsAccount) (e : PyErr)
    (h : fetch_aws_costs (env.awsEnv a) a sd ed = Except.error e) :
    processAws env sd ed (a :: rest) = ([], some e) := by
  simp [processAws, h]

/-- Unfolding equation for the AWS loop when the fetch returns null. -/
theorem processAws_cons_none (env : RunEnv) (sd ed : String) (a : AwsAccount)
    (rest : List AwsAccount)
    (h : fetch_aws_costs (env.awsEnv a) a sd ed = Except.ok none) :
    processAws env sd ed (a :: rest) =
      ((Event.awsFetched a none) :: (processAws env sd ed rest).1,
       (processAws env sd ed rest).2) := by
  simp [processAws, h]

/-- Unfolding equation for the AWS loop when the fetch returns a cost. -/
theorem processAws_cons_some (env : RunEnv) (sd ed : String) (a : AwsAccount)
    (rest : List AwsAccount) (c : Cost)
    (h : fetch_aws_costs (env.awsEnv a) a sd ed = Except.ok (some c)) :
    processAws env sd ed (a :: rest) =
      ((Event.awsFetched a (some c)) ::
        (Event.insertAttempt
          (insert_into_db env.dbEnv env.today
            { accountName := a.accountName, subscription := "N/A", monthlyCost := c }
            "aws_monthly_cost").1
          (insert_into_db env.dbEnv env.today
            { accountName := a.accountName, subscription := "N/A", monthlyCost := c }
            "aws_monthly_cost").2.1
          (insert_into_db env.dbEnv env.today
            { accountName := a.accountName, subscription := "N/A", monthlyCost := c }
            "aws_monthly_cost").2.2) :: (processAws env sd ed rest).1,
       (processAws env sd ed rest).2) := by
  simp [processAws, h]

/-- Unfolding equation for the Azure loop when the fetch raises. -/
theorem processAzure_cons_error (env : RunEnv) (sd ed : String) (z : AzureAccount)
    (rest : List AzureAccount) (e : PyErr)
    (h : fetch_azure_costs (env.azureEnv z) z sd ed = Except.error e) :
    processAzure env sd ed (z :: rest) = ([], some e) := by
  simp [processAzure, h]

/-- Unfolding equation for the Azure loop when the fetch returns null. -/
theorem processAzure_cons_none (env : RunEnv) (sd ed : String) (z : AzureAccount)
    (rest : List AzureAccount)
    (h : fetch_azure_costs (env.azureEnv z) z sd ed = Except.ok none) :
    processAzure env sd ed (z :: rest) =
      ((Event.azureFetched z none) :: (processAzure env sd ed rest).1,
       (processAzure env sd ed rest).2) := by
  simp [processAzure, h]

/-- Unfolding equation for the Azure loop when the fetch returns a cost. -/
theorem processAzure_cons_some (env : RunEnv) (sd ed : String) (z : AzureAccount)
    (rest : List AzureAccount) (c : Cost)
    (h : fetch_azure_costs (env.azureEnv z) z sd ed = Except.ok (some c)) :
    processAzure env sd ed (z :: rest) =
      ((Event.azureFetched z (some c)) ::
        (Event.insertAttempt
          (insert_into_db env.dbEnv env.today
            { accountName := z.accountName, subscription := z.subscription, monthlyCost := c }
            "azure_monthly_cost").1
          (insert_into_db env.dbEnv env.today
            { accountName := z.accountName, subscription := z.subscription, monthlyCost := c }
            "azure_monthly_cost").2.1
          (insert_into_db env.dbEnv env.today
            { accountName := z.accountName, subscription := z.subscription, monthlyCost := c }
            "azure_monthly_cost").2.2) :: (processAzure env sd ed rest).1,
       (processAzure env sd ed rest).2) := by
  simp [processAzure, h]

/-- Every insert event of the AWS loop targets aws_monthly_cost, labels
the subscription column N/A, stamps the run date, and names one of the
processed accounts. -/
theorem processAws_insert_inv (env : RunEnv) (sd ed : String) (l : List AwsAccount) :
    ∀ t r b, Event.insertAttempt t r b ∈ (processAws env sd ed l).1 →
      t = "aws_monthly_cost" ∧ r.subscription = "N/A" ∧
      r.sampleDate = fmtDdMmYy env.today ∧ ∃ a ∈ l, r.accountName = a.accountName := by
  induction l with
  | nil => intro t r b h; simp [processAws] at h
  | cons a rest ih =>
    intro t r b h
    rcases hf : fetch_aws_costs (env.awsEnv a) a sd ed with e | oc
    · rw [processAws_cons_error env sd ed a rest e hf] at h
      simp at h
    · rcases oc with _ | c
      · rw [processAws_cons_none env sd ed a rest hf] at h
        rcases List.mem_cons.mp h with h1 | h1
        · exact absurd h1 (by simp)
        · obtain ⟨ht, hs, hd, a2, ha2, hn⟩ := ih t r b h1
          exact ⟨ht, hs, hd, a2, List.mem_cons_of_mem a ha2, hn⟩
      · rw [processAws_cons_some env sd ed a rest c hf] at h
        rcases List.mem_cons.mp h with h1 | h1
        · exact absurd h1 (by simp)
        · rcases List.mem_cons.mp h1 with h2 | h2
          · have hrow := insert_into_db_row env.dbEnv env.today
              { accountName := a.accountName, subscription := "N/A", monthlyCost := c }
              "aws_monthly_cost"
            simp only [Event.insertAttempt.injEq] at h2
            obtain ⟨h2t, h2r, -⟩ := h2
            refine ⟨h2t.trans hrow.1, ?_, ?_, a, List.mem_cons_self a rest, ?_⟩ <;>
              rw [h2r, hrow.2]
          · obtain ⟨ht, hs, hd, a2, ha2, hn⟩ := ih t r b h2
            exact ⟨ht, hs, hd, a2, List.mem_cons_of_mem a ha2, hn⟩

/-- Every insert event of the Azure loop targets azure_monthly_cost,
stamps the run date, and carries the Subscription and accountName of one
of the processed subscriptions. -/
theorem processAzure_insert_inv (env : RunEnv) (sd ed : String) (l : List AzureAccount) :
    ∀ t r b, Event.insertAttempt t r b ∈ (processAzure env sd ed l).1 →
      t = "azure_monthly_cost" ∧ r.sampleDate = fmtDdMmYy env.today ∧
      ∃ z ∈ l, r.subscription = z.subscription ∧ r.accountName = z.accountName := by
  induction l with
  | nil => intro t r b h; simp [processAzure] at h
  | cons z rest ih =>
    intro t r b h
    rcases hf : fetch_azure_costs (env.azureEnv z) z sd ed with e | oc
    · rw [processAzure_cons_error env sd ed z rest e hf] at h
      simp at h
    · rcases oc with _ | c
      · rw [processAzure_cons_none env sd ed z rest hf] at h
        rcases List.mem_cons.mp h with h1 | h1
        · exact absurd h1 (by simp)
        · obtain ⟨ht, hd, z2, hz2, hn⟩ := ih t r b h1
          exact ⟨ht, hd, z2, List.mem_cons_of_mem z hz2, hn⟩
      · rw [processAzure_cons_some env sd ed z rest c hf] at h
        rcases List.mem_cons.mp h with h1 | h1
        · exact absurd h1 (by simp)
        · rcases List.mem_cons.mp h1 with h2 | h2
          · have hrow := insert_into_db_row env.dbEnv env.today
              { accountName := z.accountName, subscription := z.subscription, monthlyCost := c }
              "azure_monthly_cost"
            simp only [Event.insertAttempt.injEq] at h2
            obtain ⟨h2t, h2r, -⟩ := h2
            refine ⟨h2t.trans hrow.1, ?_, z, List.mem_cons_self z rest, ?_, ?_⟩ <;>
              rw [h2r, hrow.2]
          · obtain ⟨ht, hd, z2, hz2, hn⟩ := ih t r b h2
            exact ⟨ht, hd, z2, List.mem_cons_of_mem z hz2, hn⟩

/-- When every fetch in the AWS loop returns (null or a cost), the loop
raises nothing and records a fetched event for every account. -/
theorem processAws_total (env : RunEnv) (sd ed : String) (l : List AwsAccount)
    (h : ∀ a ∈ l, ∃ r, fetch_aws_costs (env.awsEnv a) a sd ed = Except.ok r) :
    (processAws env sd ed l).2 = none ∧
    ∀ a ∈ l, ∃ r, Event.awsFetched a r ∈ (processAws env sd ed l).1 := by
  induction l with
  | nil => simp [processAws]
  | cons a rest ih =>
    obtain ⟨r0, hr0⟩ := h a (List.mem_cons_self a rest)
    have hrest := ih (fun x hx => h x (List.mem_cons_of_mem a hx))
    rcases r0 with _ | c
    · rw [processAws_cons_none env sd ed a rest hr0]
      refine ⟨hrest.1, ?_⟩
      intro x hx
      rcases List.mem_cons.mp hx with rfl | hx2
      · exact ⟨none, List.mem_cons_self _ _⟩
      · obtain ⟨r2, hr2⟩ := hrest.2 x hx2
        exact ⟨r2, List.mem_cons_of_mem _ hr2⟩
    · rw [processAws_cons_some env sd ed a rest c hr0]
      refine ⟨hrest.1, ?_⟩
      intro x hx
      rcases List.mem_cons.mp hx with rfl | hx2
      · exact ⟨some c, List.mem_cons_self _ _⟩
      · obtain ⟨r2, hr2⟩ := hrest.2 x hx2
        exact ⟨r2, List.mem_cons_of_mem _ (List.mem_cons_of_mem _ hr2)⟩

/-- When every fetch in the Azure loop returns, the loop raises nothing
and records a fetched event for every subscription. -/
theorem processAzure_total (env : RunEnv) (sd ed : String) (l : List AzureAccount)
    (h : ∀ z ∈ l, ∃ r, fetch_azure_costs (env.azureEnv z) z sd ed = Except.ok r) :
    (processAzure env sd ed l).2 = none ∧
    ∀ z ∈ l, ∃ r, Event.azureFetched z r ∈ (processAzure env sd ed l).1 := by
  induction l with
  | nil => simp [processAzure]
  | cons z rest ih =>
    obtain ⟨r0, hr0⟩ := h z (List.mem_cons_self z rest)
    have hrest := ih (fun x hx => h x (List.mem_cons_of_mem z hx))
    rcases r0 with _ | c
    · rw [processAzure_cons_none env sd ed z rest hr0]
      refine ⟨hrest.1, ?_⟩
      intro x hx
      rcases List.mem_cons.mp hx with rfl | hx2
      · exact ⟨none, List.mem_cons_self _ _⟩
      · obtain ⟨r2, hr2⟩ := hrest.2 x hx2
        exact ⟨r2, List.mem_cons_of_mem _ hr2⟩
    · rw [processAzure_cons_some env sd ed z rest c hr0]
      refine ⟨hrest.1, ?_⟩
      intro x hx
      rcases List.mem_cons.mp hx with rfl | hx2
      · exact ⟨some c, List.mem_cons_self _ _⟩
      · obtain ⟨r2, hr2⟩ := hrest.2 x hx2
        exact ⟨r2, List.mem_cons_of_mem _ (List.mem_cons_of_mem _ hr2)⟩

/-- main on a failed config load: nothing runs and the exit code is 1. -/
theorem main_eq_err (env : RunEnv) (e : PyErr) (hc : env.config = Except.error e) :
    main env = ([], 1) := by
  unfold main; rw [hc]

/-- main on a loaded config whose AWS loop raises nothing: the trace is
the two loop traces in order and the exit code reflects the Azure loop. -/
theorem main_eq_ok (env : RunEnv) (cfg : Config) (hc : env.config = Except.ok cfg)
    (hA : (processAws env (get_previous_month_range env.today).1.1
            (get_previous_month_range env.today).1.2 cfg.aws).2 = none) :
    main env =
      ((processAws env (get_previous_month_range env.today).1.1
          (get_previous_month_range env.today).1.2 cfg.aws).1 ++
       (processAzure env (get_previous_month_range env.today).2.1
          (get_previous_month_range env.today).2.2 cfg.azure).1,
       if (processAzure env (get_previous_month_range env.today).2.1
            (get_previous_month_range env.today).2.2 cfg.azure).2.isSome
       then 1 else 0) := by
  unfold main
  rw [hc]
  dsimp only
  rw [hA]

/-- Every insert event of a whole run comes from one of the two loops of
a successfully loaded config. -/
theorem main_insert_mem (env : RunEnv) (t : String) (r : DbRow) (b : Bool)
    (h : Event.insertAttempt t r b ∈ (main env).1) :
    ∃ cfg, env.config = Except.ok cfg ∧
      (Event.insertAttempt t r b ∈
        (processAws env (get_previous_month_range env.today).1.1
          (get_previous_month_range env.today).1.2 cfg.aws).1 ∨
       Event.insertAttempt t r b ∈
        (processAzure env (get_previous_month_range env.today).2.1
          (get_previous_month_range env.today).2.2 cfg.azure).1) := by
  unfold main at h
  rcases hc : env.config with e | cfg
  · rw [hc] at h; simp at h
  · rw [hc] at h
    dsimp only at h
    refine ⟨cfg, rfl, ?_⟩
    rcases h2 : (processAws env (get_previous_month_range env.today).1.1
        (get_previous_month_range env.today).1.2 cfg.aws).2 with _ | e2
    · rw [h2] at h
      dsimp only at h
      exact List.mem_append.mp h
    · rw [h2] at h
      dsimp only at h
      exact Or.inl h


/-- Claim C3: for every valid date `today`, get_previous_month_range
returns the first and last calendar day of the month preceding the month
of `today`, formatted YYYY-MM-DD for AWS and with T00:00:00Z / T23:59:59Z
suffixes for Azure; in particular for today = 2024-03-15 it returns the
AWS range (2024-02-01, 2024-02-29) and the corresponding Azure
timestamps, handling leap-year February. -/
theorem c3_previous_month_range (today : Date) (h : today.Valid) :
    get_previous_month_range today =
      ((fmtAws ⟨(prevYM today.year today.month).1, (prevYM today.year today.month).2, 1⟩,
        fmtAws ⟨(prevYM today.year today.month).1, (prevYM today.year today.month).2,
          daysInMonth (prevYM today.year today.month).1 (prevYM today.year today.month).2⟩),
       (fmtAzureStart ⟨(prevYM today.year today.month).1, (prevYM today.year today.month).2, 1⟩,
        fmtAzureEnd ⟨(prevYM today.year today.month).1, (prevYM today.year today.month).2,
          daysInMonth (prevYM today.year today.month).1 (prevYM today.year today.month).2⟩)) ∧
    get_previous_month_range ⟨2024, 3, 15⟩ =
      (("2024-02-01", "2024-02-29"),
       ("2024-02-01T00:00:00Z", "2024-02-29T23:59:59Z")) := by
  constructor
  · obtain ⟨h1, h2, -, -⟩ := h
    by_cases hm : today.month = 1
    · simp only [get_previous_month_range, Date.predDay, prevYM, hm]
      norm_num [daysInMonth, isLeapYear]
    · have hm2 : 1 < today.month := lt_of_le_of_ne h1 (Ne.symm hm)
      simp only [get_previous_month_range, Date.predDay, prevYM, hm]
      norm_num [hm2]
  · decide

/-- Witness for C3 at the concrete date 2024-03-15. -/
theorem c3_previous_month_range_witness :
    get_previous_month_range ⟨2024, 3, 15⟩ =
      (("2024-02-01", "2024-02-29"),
       ("2024-02-01T00:00:00Z", "2024-02-29T23:59:59Z")) :=
  (c3_previous_month_range ⟨2024, 3, 15⟩ (by decide)).2

/-- Test account without tag filtering (tags key left null in YAML). -/
def acctA : AwsAccount :=
  { accountId := "111122223333", roleName := "CostReader", accountName := "acme-prod",
    tags := Yaml.null, tagKey := "team", tagValue := "platform" }

/-- Test account with tag filtering requested via the string "true". -/
def acctB : AwsAccount :=
  { accountId := "444455556666", roleName := "CostReader", accountName := "acme-dev",
    tags := Yaml.str "true", tagKey := "team", tagValue := "platform" }

/-- Test Azure subscription whose label contains an underscore. -/
def subZ : AzureAccount := { subscription := "sub_one", accountName := "azure-main" }

/-- Second test Azure subscription. -/
def subZ2 : AzureAccount := { subscription := "sub_two", accountName := "azure-dev" }

/-- AWS oracle where both network calls succeed with one result row. -/
def awsEnvOk : AwsEnv :=
  { assumeRole := fun _ _ => Except.ok (),
    getCostAndUsage := fun _ => Except.ok { resultsByTime := [{ unblendedCostAmount := 123 }] } }

/-- AWS oracle where the STS assume_role call raises. -/
def awsEnvAssumeFail : AwsEnv :=
  { assumeRole := fun _ _ => Except.error PyErr.assumeRoleError,
    getCostAndUsage := fun _ => Except.ok { resultsByTime := [{ unblendedCostAmount := 123 }] } }

/-- AWS oracle where the cost query raises. -/
def awsEnvQueryFail : AwsEnv :=
  { assumeRole := fun _ _ => Except.ok (),
    getCostAndUsage := fun _ => Except.error PyErr.queryError }

/-- AWS oracle where the cost query succeeds with an empty ResultsByTime. -/
def awsEnvEmpty : AwsEnv :=
  { assumeRole := fun _ _ => Except.ok (),
    getCostAndUsage := fun _ => Except.ok { resultsByTime := [] } }

/-- Azure oracle where everything succeeds with one result row. -/
def azureEnvOk : AzureEnv :=
  { getenv := fun _ => some "value",
    mkCredential := fun _ _ _ => Except.ok (),
    queryUsage := fun _ => Except.ok { rows := [[68]] } }

/-- Azure oracle where the query succeeds with an empty row set. -/
def azureEnvEmpty : AzureEnv :=
  { getenv := fun _ => some "value",
    mkCredential := fun _ _ _ => Except.ok (),
    queryUsage := fun _ => Except.ok { rows := [] } }

/-- Azure oracle where the credential construction raises. -/
def azureEnvCredFail : AzureEnv :=
  { getenv := fun _ => none,
    mkCredential := fun _ _ _ => Except.error PyErr.credentialError,
    queryUsage := fun _ => Except.ok { rows := [[68]] } }

/-- Database oracle where every insert commits. -/
def dbOk : DbEnv := { connectAndInsert := fun _ _ => Except.ok () }

/-- Run on 2024-03-15 where the first of two AWS accounts fails role
assumption; the Azure side would succeed if it were ever reached. -/
def envAbort : RunEnv :=
  { config := Except.ok { aws := [acctA, acctB], azure := [subZ] },
    today := ⟨2024, 3, 15⟩,
    awsEnv := fun _ => awsEnvAssumeFail,
    azureEnv := fun _ => azureEnvOk,
    dbEnv := dbOk }

/-- Run on 2024-03-15 where the first of two Azure subscriptions fails
credential construction. -/
def envAzCredFail : RunEnv :=
  { config := Except.ok { aws := [], azure := [subZ, subZ2] },
    today := ⟨2024, 3, 15⟩,
    awsEnv := fun _ => awsEnvOk,
    azureEnv := fun _ => azureEnvCredFail,
    dbEnv := dbOk }

/-- Run on 2024-03-15 where every descriptor succeeds. -/
def envOk : RunEnv :=
  { config := Except.ok { aws := [acctA], azure := [subZ] },
    today := ⟨2024, 3, 15⟩,
    awsEnv := fun _ => awsEnvOk,
    azureEnv := fun _ => azureEnvOk,
    dbEnv := dbOk }

/-- Run on 2024-03-15 where the AWS billing query raises (caught). -/
def envQueryFail : RunEnv :=
  { config := Except.ok { aws := [acctA], azure := [subZ] },
    today := ⟨2024, 3, 15⟩,
    awsEnv := fun _ => awsEnvQueryFail,
    azureEnv := fun _ => azureEnvOk,
    dbEnv := dbOk }

/-- Run on 2024-03-15 where the first Azure subscription gets an empty
result set and the second succeeds. -/
def envEmptyAzure : RunEnv :=
  { config := Except.ok { aws := [], azure := [subZ, subZ2] },
    today := ⟨2024, 3, 15⟩,
    awsEnv := fun _ => awsEnvOk,
    azureEnv := fun z => if z = subZ then azureEnvEmpty else azureEnvOk,
    dbEnv := dbOk }

/-- Run on 2024-03-15 where the AWS cost query succeeds with an empty
ResultsByTime. -/
def envEmptyAws : RunEnv :=
  { config := Except.ok { aws := [acctA], azure := [subZ] },
    today := ⟨2024, 3, 15⟩,
    awsEnv := fun _ => awsEnvEmpty,
    azureEnv := fun _ => azureEnvOk,
    dbEnv := dbOk }

/-- Run whose config file fails to load. -/
def envBadConfig : RunEnv :=
  { config := Except.error PyErr.configError,
    today := ⟨2024, 3, 15⟩,
    awsEnv := fun _ => awsEnvOk,
    azureEnv := fun _ => azureEnvOk,
    dbEnv := dbOk }

/-- Claim C1 counterexample: an AWS role-assumption error is not caught
and does not yield a null fetch result — it escapes fetch_aws_costs as an
uncaught exception and aborts the run, so the remaining descriptors
(acctB and the Azure subscription of envAbort) are never processed: the
trace is empty. Likewise an Azure credential-construction error escapes
fetch_azure_costs and aborts the run before the second subscription of
envAzCredFail. -/
theorem c1_counterexample :
    fetch_aws_costs (envAbort.awsEnv acctA) acctA "2024-02-01" "2024-02-29"
        = Except.error PyErr.assumeRoleError ∧
    main envAbort = ([], 1) ∧
    fetch_azure_costs (envAzCredFail.azureEnv subZ) subZ
        "2024-02-01T00:00:00Z" "2024-02-29T23:59:59Z"
        = Except.error PyErr.credentialError ∧
    main envAzCredFail = ([], 1) := by decide

/-- Claim C1 (amended): a billing query failure is caught at the point of
occurrence and yields a null fetch result (AWS and Azure alike), and any
fetch that returns — null or not — lets processing continue with the next
descriptor (same loop outcome, trace extended at the front); but the AWS
role-assumption error and the Azure credential-construction error are not
caught: they escape the fetcher as uncaught exceptions and abort the
remaining loop iterations. -/
theorem c1_recoverable_failures_isolated (env : RunEnv) (sd ed : String)
    (a : AwsAccount) (restA : List AwsAccount)
    (z : AzureAccount) (restZ : List AzureAccount) :
    ((env.awsEnv a).assumeRole a.accountId a.roleName = Except.ok () →
      ∀ e, (env.awsEnv a).getCostAndUsage (awsCostQuery a sd ed) = Except.error e →
        fetch_aws_costs (env.awsEnv a) a sd ed = Except.ok none) ∧
    (azureCredOk (env.azureEnv z) z →
      ∀ e, (env.azureEnv z).queryUsage (azureQueryDef z sd ed) = Except.error e →
        fetch_azure_costs (env.azureEnv z) z sd ed = Except.ok none) ∧
    (∀ r, fetch_aws_costs (env.awsEnv a) a sd ed = Except.ok r →
      (processAws env sd ed (a :: restA)).2 = (processAws env sd ed restA).2 ∧
      (processAws env sd ed restA).1 <:+ (processAws env sd ed (a :: restA)).1) ∧
    (∀ r, fetch_azure_costs (env.azureEnv z) z sd ed = Except.ok r →
      (processAzure env sd ed (z :: restZ)).2 = (processAzure env sd ed restZ).2 ∧
      (processAzure env sd ed restZ).1 <:+ (processAzure env sd ed (z :: restZ)).1) ∧
    (∀ e, (env.awsEnv a).assumeRole a.accountId a.roleName = Except.error e →
      fetch_aws_costs (env.awsEnv a) a sd ed = Except.error e ∧
      processAws env sd ed (a :: restA) = ([], some e)) ∧
    (∀ e, azureCredResult (env.azureEnv z) z = Except.error e →
      fetch_azure_costs (env.azureEnv z) z sd ed = Except.error e ∧
      processAzure env sd ed (z :: restZ) = ([], some e)) := by
  refine ⟨?_, ?_, ?_, ?_, ?_, ?_⟩
  · intro h e he
    simp [fetch_aws_costs, h, he]
  · intro h e he
    unfold azureCredOk azureCredResult at h
    simp [fetch_azure_costs, h, he]
  · intro r hr
    rcases r with _ | c
    · rw [processAws_cons_none env sd ed a restA hr]
      exact ⟨rfl, List.suffix_cons _ _⟩
    · rw [processAws_cons_some env sd ed a restA c hr]
      exact ⟨rfl, (List.suffix_cons _ _).trans (List.suffix_cons _ _)⟩
  · intro r hr
    rcases r with _ | c
    · rw [processAzure_cons_none env sd ed z restZ hr]
      exact ⟨rfl, List.suffix_cons _ _⟩
    · rw [processAzure_cons_some env sd ed z restZ c hr]
      exact ⟨rfl, (List.suffix_cons _ _).trans (List.suffix_cons _ _)⟩
  · intro e he
    have hf : fetch_aws_costs (env.awsEnv a) a sd ed = Except.error e := by
      simp [fetch_aws_costs, he]
    exact ⟨hf, processAws_cons_error env sd ed a restA e hf⟩
  · intro e he
    unfold azureCredResult at he
    have hf : fetch_azure_costs (env.azureEnv z) z sd ed = Except.error e := by
      simp [fetch_azure_costs, he]
    exact ⟨hf, processAzure_cons_error env sd ed z restZ e hf⟩

/-- Witness for the amended C1: a concrete caught AWS query failure
yields a null result and leaves the loop outcome unchanged. -/
theorem c1_recoverable_failures_isolated_witness :
    fetch_aws_costs (envQueryFail.awsEnv acctA) acctA "2024-02-01" "2024-02-29"
        = Except.ok none ∧
    (processAws envQueryFail "2024-02-01" "2024-02-29" [acctA]).2 =
      (processAws envQueryFail "2024-02-01" "2024-02-29" []).2 := by
  have h := c1_recoverable_failures_isolated envQueryFail "2024-02-01" "2024-02-29"
    acctA [] subZ []
  have h1 := h.1 (by decide) PyErr.queryError (by decide)
  exact ⟨h1, (h.2.2.1 none h1).1⟩

/-- Claim C2 counterexample: in envAbort the config file loads, yet the
run exits non-zero and processes nothing further — so a non-zero exit
does not imply a config-load failure, and a non-config failure does not
let the run complete all configured descriptors. -/
theorem c2_counterexample :
    envAbort.config = Except.ok { aws := [acctA, acctB], azure := [subZ] } ∧
    (main envAbort).2 ≠ 0 ∧
    (main envAbort).1 = [] := by decide

/-- Claim C2 (amended): the process exits non-zero when the config file
cannot be loaded, and also when an uncaught exception escapes a fetcher;
when the config loads and every fetch returns (null or a cost), the run
records a fetched event for every configured descriptor and exits zero. -/
theorem c2_exit_status (env : RunEnv) :
    (∀ e, env.config = Except.error e → main env = ([], 1)) ∧
    (∀ cfg, env.config = Except.ok cfg →
      (∀ a ∈ cfg.aws, ∃ r, fetch_aws_costs (env.awsEnv a) a
          (get_previous_month_range env.today).1.1
          (get_previous_month_range env.today).1.2 = Except.ok r) →
      (∀ z ∈ cfg.azure, ∃ r, fetch_azure_costs (env.azureEnv z) z
          (get_previous_month_range env.today).2.1
          (get_previous_month_range env.today).2.2 = Except.ok r) →
      (main env).2 = 0 ∧
      (∀ a ∈ cfg.aws, ∃ r, Event.awsFetched a r ∈ (main env).1) ∧
      (∀ z ∈ cfg.azure, ∃ r, Event.azureFetched z r ∈ (main env).1)) := by
  constructor
  · exact fun e he => main_eq_err env e he
  · intro cfg hc hA hZ
    have tA := processAws_total env (get_previous_month_range env.today).1.1
      (get_previous_month_range env.today).1.2 cfg.aws hA
    have tZ := processAzure_total env (get_previous_month_range env.today).2.1
      (get_previous_month_range env.today).2.2 cfg.azure hZ
    have hm := main_eq_ok env cfg hc tA.1
    rw [hm]
    refine ⟨by simp [tZ.1], ?_, ?_⟩
    · intro a ha
      obtain ⟨r, hr⟩ := tA.2 a ha
      exact ⟨r, by simp [List.mem_append, hr]⟩
    · intro z hz
      obtain ⟨r, hr⟩ := tZ.2 z hz
      exact ⟨r, by simp [List.mem_append, hr]⟩

/-- Witness for the amended C2: the bad-config run exits 1 and the
all-success run exits 0. -/
theorem c2_exit_status_witness :
    main envBadConfig = ([], 1) ∧ (main envOk).2 = 0 := by
  have hA : ∀ a ∈ ({ aws := [acctA], azure := [subZ] } : Config).aws, ∃ r,
      fetch_aws_costs (envOk.awsEnv a) a
        (get_previous_month_range envOk.today).1.1
        (get_previous_month_range envOk.today).1.2 = Except.ok r := by
    intro a ha
    rw [List.mem_singleton] at ha
    subst ha
    exact ⟨some 123, by decide⟩
  have hZ : ∀ z ∈ ({ aws := [acctA], azure := [subZ] } : Config).azure, ∃ r,
      fetch_azure_costs (envOk.azureEnv z) z
        (get_previous_month_range envOk.today).2.1
        (get_previous_month_range envOk.today).2.2 = Except.ok r := by
    intro z hz
    rw [List.mem_singleton] at hz
    subst hz
    exact ⟨some 68, by decide⟩
  exact ⟨(c2_exit_status envBadConfig).1 PyErr.configError (by decide),
         ((c2_exit_status envOk).2 { aws := [acctA], azure := [subZ] }
           (by decide) hA hZ).1⟩

/-- Claim C4: when the tag-filter flag of the descriptor is off the
issued cost query carries no tag filter; when it is on the query carries
exactly one equality filter on the configured tag key restricted to the
configured tag value; granularity MONTHLY, the UnblendedCost metric and
the date range are identical in both cases. -/
theorem c4_tag_filter_query (aws_account : AwsAccount) (sd ed : String) :
    (aws_account.tags.eqStrTrue = false →
      (awsCostQuery aws_account sd ed).filter = none) ∧
    (aws_account.tags.eqStrTrue = true →
      (awsCostQuery aws_account sd ed).filter =
        some { key := aws_account.tagKey, values := [aws_account.tagValue],
               matchOptions := ["EQUALS"] }) ∧
    (awsCostQuery aws_account sd ed).granularity = "MONTHLY" ∧
    (awsCostQuery aws_account sd ed).metrics = ["UnblendedCost"] ∧
    (awsCostQuery aws_account sd ed).timePeriodStart = sd ∧
    (awsCostQuery aws_account sd ed).timePeriodEnd = ed := by
  unfold awsCostQuery
  cases h : aws_account.tags.eqStrTrue <;> simp [h]

/-- Witness for C4: the unfiltered account issues no tag filter and the
tag-filtered account issues the one equality filter. -/
theorem c4_tag_filter_query_witness :
    (awsCostQuery acctA "2024-02-01" "2024-02-29").filter = none ∧
    (awsCostQuery acctB "2024-02-01" "2024-02-29").filter =
      some { key := "team", values := ["platform"], matchOptions := ["EQUALS"] } := by
  exact ⟨(c4_tag_filter_query acctA "2024-02-01" "2024-02-29").1 (by decide),
         (c4_tag_filter_query acctB "2024-02-01" "2024-02-29").2.1 (by decide)⟩

/-- Claim C5: a descriptor whose fetch returned null contributes only its
fetched event — insert_into_db is not invoked for it and no insert event
appears — while a descriptor whose fetch returned a cost contributes its
fetched event plus exactly one insert into the provider table; in both
cases the rest of the run is unchanged. -/
theorem c5_write_iff_nonnull (env : RunEnv) (sd ed : String)
    (a : AwsAccount) (restA : List AwsAccount)
    (z : AzureAccount) (restZ : List AzureAccount) :
    (fetch_aws_costs (env.awsEnv a) a sd ed = Except.ok none →
      processAws env sd ed (a :: restA) =
        ((Event.awsFetched a none) :: (processAws env sd ed restA).1,
         (processAws env sd ed restA).2)) ∧
    (∀ c, fetch_aws_costs (env.awsEnv a) a sd ed = Except.ok (some c) →
      processAws env sd ed (a :: restA) =
        ((Event.awsFetched a (some c)) ::
          (Event.insertAttempt "aws_monthly_cost"
            { accountName := a.accountName, subscription := "N/A",
              monthlyCost := c, sampleDate := fmtDdMmYy env.today }
            (insert_into_db env.dbEnv env.today
              { accountName := a.accountName, subscription := "N/A", monthlyCost := c }
              "aws_monthly_cost").2.2) :: (processAws env sd ed restA).1,
         (processAws env sd ed restA).2)) ∧
    (fetch_azure_costs (env.azureEnv z) z sd ed = Except.ok none →
      processAzure env sd ed (z :: restZ) =
        ((Event.azureFetched z none) :: (processAzure env sd ed restZ).1,
         (processAzure env sd ed restZ).2)) ∧
    (∀ c, fetch_azure_costs (env.azureEnv z) z sd ed = Except.ok (some c) →
      processAzure env sd ed (z :: restZ) =
        ((Event.azureFetched z (some c)) ::
          (Event.insertAttempt "azure_monthly_cost"
            { accountName := z.accountName, subscription := z.subscription,
              monthlyCost := c, sampleDate := fmtDdMmYy env.today }
            (insert_into_db env.dbEnv env.today
              { accountName := z.accountName, subscription := z.subscription,
                monthlyCost := c }
              "azure_monthly_cost").2.2) :: (processAzure env sd ed restZ).1,
         (processAzure env sd ed restZ).2)) := by
  refine ⟨?_, ?_, ?_, ?_⟩
  · exact fun h => processAws_cons_none env sd ed a restA h
  · intro c hc
    rw [processAws_cons_some env sd ed a restA c hc]
    have hrow := insert_into_db_row env.dbEnv env.today
      { accountName := a.accountName, subscription := "N/A", monthlyCost := c }
      "aws_monthly_cost"
    rw [hrow.1, hrow.2]
  · exact fun h => processAzure_cons_none env sd ed z restZ h
  · intro c hc
    rw [processAzure_cons_some env sd ed z restZ c hc]
    have hrow := insert_into_db_row env.dbEnv env.today
      { accountName := z.accountName, subscription := z.subscription, monthlyCost := c }
      "azure_monthly_cost"
    rw [hrow.1, hrow.2]

/-- Witness for C5: a caught AWS query failure leaves only a fetched-null
event and no insert, while the successful Azure subscription gets its
fetched event plus exactly one insert into azure_monthly_cost. -/
theorem c5_write_iff_nonnull_witness :
    processAws envQueryFail "2024-02-01" "2024-02-29" [acctA] =
      ([Event.awsFetched acctA none], none) ∧
    processAzure envOk "2024-02-01T00:00:00Z" "2024-02-29T23:59:59Z" [subZ] =
      ([Event.azureFetched subZ (some 68),
        Event.insertAttempt "azure_monthly_cost"
          { accountName := "azure-main", subscription := "sub_one",
            monthlyCost := 68, sampleDate := "15/03/24" } true], none) := by
  constructor
  · exact (c5_write_iff_nonnull envQueryFail "2024-02-01" "2024-02-29"
      acctA [] subZ []).1 (by decide)
  · exact (c5_write_iff_nonnull envOk "2024-02-01T00:00:00Z" "2024-02-29T23:59:59Z"
      acctA [] subZ []).2.2.2 68 (by decide)

/-- Claim C6: an Azure cost query that succeeds with an empty result set
makes fetch_azure_costs return null (no data, not an error), contributes
no insert into azure_monthly_cost for that descriptor, and leaves the
processing of all remaining descriptors unchanged. -/
theorem c6_azure_empty_result (env : RunEnv) (sd ed : String)
    (z : AzureAccount) (restZ : List AzureAccount)
    (hcred : azureCredOk (env.azureEnv z) z)
    (hq : (env.azureEnv z).queryUsage (azureQueryDef z sd ed) =
      Except.ok { rows := [] }) :
    fetch_azure_costs (env.azureEnv z) z sd ed = Except.ok none ∧
    processAzure env sd ed (z :: restZ) =
      ((Event.azureFetched z none) :: (processAzure env sd ed restZ).1,
       (processAzure env sd ed restZ).2) := by
  have hf : fetch_azure_costs (env.azureEnv z) z sd ed = Except.ok none := by
    unfold azureCredOk azureCredResult at hcred
    simp [fetch_azure_costs, hcred, hq]
  exact ⟨hf, processAzure_cons_none env sd ed z restZ hf⟩

/-- Witness for C6: in envEmptyAzure the first subscription gets an empty
result set, zero inserts happen for it, and the second subscription is
still fetched and written. -/
theorem c6_azure_empty_result_witness :
    fetch_azure_costs (envEmptyAzure.azureEnv subZ) subZ
      "2024-02-01T00:00:00Z" "2024-02-29T23:59:59Z" = Except.ok none ∧
    processAzure envEmptyAzure "2024-02-01T00:00:00Z" "2024-02-29T23:59:59Z"
      [subZ, subZ2] =
      ([Event.azureFetched subZ none,
        Event.azureFetched subZ2 (some 68),
        Event.insertAttempt "azure_monthly_cost"
          { accountName := "azure-dev", subscription := "sub_two",
            monthlyCost := 68, sampleDate := "15/03/24" } true], none) := by
  have h := c6_azure_empty_result envEmptyAzure
    "2024-02-01T00:00:00Z" "2024-02-29T23:59:59Z" subZ [subZ2]
    (by decide) (by decide)
  exact ⟨h.1, h.2⟩

/-- Claim C7: every row bound by insert_into_db during a run carries the
run date (not the billing period) in its sample-date column, formatted
day/month/2-digit-year; a run on 2024-03-15 stamps 15/03/24. -/
theorem c7_sample_date (env : RunEnv) :
    (∀ t r b, Event.insertAttempt t r b ∈ (main env).1 →
      r.sampleDate = fmtDdMmYy env.today) ∧
    fmtDdMmYy ⟨2024, 3, 15⟩ = "15/03/24" := by
  constructor
  · intro t r b h
    obtain ⟨cfg, -, hmem | hmem⟩ := main_insert_mem env t r b h
    · exact (processAws_insert_inv env (get_previous_month_range env.today).1.1
        (get_previous_month_range env.today).1.2 cfg.aws t r b hmem).2.2.1
    · exact (processAzure_insert_inv env (get_previous_month_range env.today).2.1
        (get_previous_month_range env.today).2.2 cfg.azure t r b hmem).2.1
  · decide

/-- Witness for C7: the AWS row inserted by the all-success run on
2024-03-15 carries sample date 15/03/24 even though the billed period is
February. -/
theorem c7_sample_date_witness :
    ({ accountName := "acme-prod", subscription := "N/A", monthlyCost := 123,
       sampleDate := "15/03/24" } : DbRow).sampleDate = fmtDdMmYy envOk.today :=
  (c7_sample_date envOk).1 "aws_monthly_cost"
    { accountName := "acme-prod", subscription := "N/A", monthlyCost := 123,
      sampleDate := "15/03/24" } true (by decide)

/-- Claim C8: every row inserted into aws_monthly_cost carries the
subscription label N/A, and every row inserted into azure_monthly_cost
carries the Subscription identifier (and accountName) of one of the
configured Azure descriptors. -/
theorem c8_subscription_label (env : RunEnv) (cfg : Config)
    (hc : env.config = Except.ok cfg) :
    ∀ t r b, Event.insertAttempt t r b ∈ (main env).1 →
      (t = "aws_monthly_cost" → r.subscription = "N/A") ∧
      (t = "azure_monthly_cost" →
        ∃ z ∈ cfg.azure, r.subscription = z.subscription ∧
          r.accountName = z.accountName) := by
  intro t r b h
  obtain ⟨cfg2, hc2, hmem | hmem⟩ := main_insert_mem env t r b h
  · rw [hc] at hc2
    injection hc2 with hcfg
    subst hcfg
    have inv := processAws_insert_inv env (get_previous_month_range env.today).1.1
      (get_previous_month_range env.today).1.2 cfg.aws t r b hmem
    exact ⟨fun _ => inv.2.1, fun hAz => absurd (inv.1.symm.trans hAz) (by decide)⟩
  · rw [hc] at hc2
    injection hc2 with hcfg
    subst hcfg
    have inv := processAzure_insert_inv env (get_previous_month_range env.today).2.1
      (get_previous_month_range env.today).2.2 cfg.azure t r b hmem
    exact ⟨fun hAws => absurd (inv.1.symm.trans hAws) (by decide),
           fun _ => inv.2.2⟩

/-- Witness for C8: in the all-success run the AWS row carries label N/A
and the Azure row carries the subscription identifier sub_one of the
configured descriptor. -/
theorem c8_subscription_label_witness :
    ({ accountName := "acme-prod", subscription := "N/A", monthlyCost := 123,
       sampleDate := "15/03/24" } : DbRow).subscription = "N/A" ∧
    ∃ z ∈ ({ aws := [acctA], azure := [subZ] } : Config).azure,
      ({ accountName := "azure-main", subscription := "sub_one", monthlyCost := 68,
         sampleDate := "15/03/24" } : DbRow).subscription = z.subscription ∧
      ({ accountName := "azure-main", subscription := "sub_one", monthlyCost := 68,
         sampleDate := "15/03/24" } : DbRow).accountName = z.accountName := by
  constructor
  · exact (c8_subscription_label envOk { aws := [acctA], azure := [subZ] }
      (by decide) "aws_monthly_cost"
      { accountName := "acme-prod", subscription := "N/A", monthlyCost := 123,
        sampleDate := "15/03/24" } true (by decide)).1 rfl
  · exact (c8_subscription_label envOk { aws := [acctA], azure := [subZ] }
      (by decide) "azure_monthly_cost"
      { accountName := "azure-main", subscription := "sub_one", monthlyCost := 68,
        sampleDate := "15/03/24" } true (by decide)).2 rfl

/-- Claim C9 (implicit): when the AWS cost query succeeds but returns an
empty ResultsByTime, fetch_aws_costs raises an uncaught exception — the
indexing happens outside the try/except — aborting the loop, whereas the
analogous empty Azure result is handled and yields null. -/
theorem c9_aws_empty_result_raises (env : AwsEnv) (aws_account : AwsAccount)
    (sd ed : String)
    (h1 : env.assumeRole aws_account.accountId aws_account.roleName = Except.ok ())
    (h2 : env.getCostAndUsage (awsCostQuery aws_account sd ed) =
      Except.ok { resultsByTime := [] }) :
    fetch_aws_costs env aws_account sd ed = Except.error PyErr.indexError ∧
    (∀ renv : RunEnv, ∀ restA, renv.awsEnv aws_account = env →
      processAws renv sd ed (aws_account :: restA) =
        ([], some PyErr.indexError)) ∧
    (∀ zenv : AzureEnv, ∀ z : AzureAccount, azureCredOk zenv z →
      zenv.queryUsage (azureQueryDef z sd ed) = Except.ok { rows := [] } →
      fetch_azure_costs zenv z sd ed = Except.ok none) := by
  have hf : fetch_aws_costs env aws_account sd ed = Except.error PyErr.indexError := by
    simp [fetch_aws_costs, h1, h2]
  refine ⟨hf, ?_, ?_⟩
  · intro renv restA hre
    exact processAws_cons_error renv sd ed aws_account restA PyErr.indexError
      (by rw [hre]; exact hf)
  · intro zenv z hcred hq
    unfold azureCredOk azureCredResult at hcred
    simp [fetch_azure_costs, hcred, hq]

/-- Witness for C9: the concrete empty-result AWS oracle raises and
aborts the loop; the concrete empty-result Azure oracle yields null. -/
theorem c9_aws_empty_result_raises_witness :
    fetch_aws_costs awsEnvEmpty acctA "2024-02-01" "2024-02-29"
        = Except.error PyErr.indexError ∧
    processAws envEmptyAws "2024-02-01" "2024-02-29" [acctA]
        = ([], some PyErr.indexError) ∧
    fetch_azure_costs azureEnvEmpty subZ "2024-02-01" "2024-02-29"
        = Except.ok none := by
  have h := c9_aws_empty_result_raises awsEnvEmpty acctA "2024-02-01" "2024-02-29"
    (by decide) (by decide)
  exact ⟨h.1, h.2.1 envEmptyAws [] (by unfold envEmptyAws; rfl),
         h.2.2 azureEnvEmpty subZ (by decide) (by decide)⟩

/-- Claim C10 (implicit): the tag filter is attached exactly when the
tags field is the exact string "true"; a YAML boolean true, the string
"True", or a null value all issue the unfiltered query. -/
theorem c10_tags_exact_string_match (aws_account : AwsAccount) (sd ed : String) :
    ((awsCostQuery aws_account sd ed).filter ≠ none ↔
      aws_account.tags = Yaml.str "true") ∧
    (awsCostQuery { aws_account with tags := Yaml.bool true } sd ed).filter = none ∧
    (awsCostQuery { aws_account with tags := Yaml.str "True" } sd ed).filter = none ∧
    (awsCostQuery { aws_account with tags := Yaml.null } sd ed).filter = none := by
  refine ⟨?_, ?_, ?_, ?_⟩
  · unfold awsCostQuery
    rcases htags : aws_account.tags with s | b | _
    · by_cases hs : s = "true"
      · subst hs
        simp [Yaml.eqStrTrue]
      · simp [Yaml.eqStrTrue, hs]
    · simp [Yaml.eqStrTrue]
    · simp [Yaml.eqStrTrue]
  · simp [awsCostQuery, Yaml.eqStrTrue]
  · simp [awsCostQuery, Yaml.eqStrTrue]
  · simp [awsCostQuery, Yaml.eqStrTrue]

/-- Witness for C10: the descriptor whose tags field is the string "true"
gets a filter; flipping the field to a YAML boolean true silently drops
filtering. -/
theorem c10_tags_exact_string_match_witness :
    (awsCostQuery acctB "2024-02-01" "2024-02-29").filter ≠ none ∧
    (awsCostQuery { acctA with tags := Yaml.bool true }
      "2024-02-01" "2024-02-29").filter = none := by
  exact ⟨(c10_tags_exact_string_match acctB "2024-02-01" "2024-02-29").1.mpr (by decide),
         (c10_tags_exact_string_match acctA "2024-02-01" "2024-02-29").2.1⟩

end CloudCost
